import Mathlib

/-
Verification development for the django-nanoid-integration package.

The Python sources under django_nanoid_integration/ are shallowly embedded:
pure string manipulation becomes Lean functions on String / List Char,
database existence queries and the random NanoID generator become explicit
oracle parameters (functions passed to the embedded operations), and
exception-raising code returns Except / Option values.
-/

set_option autoImplicit false

instance {α β : Type} [DecidableEq α] [DecidableEq β] : DecidableEq (Except α β) := fun x y => by
  cases x <;> cases y
  case error.error a b => exact decidable_of_iff (a = b) (by simp)
  case error.ok a b => exact isFalse (by simp)
  case ok.error a b => exact isFalse (by simp)
  case ok.ok a b => exact decidable_of_iff (a = b) (by simp)

namespace DjangoNanoid

/- ===== alphabets.py ===== -/

def UPPERCASE_NUMBERS_SAFE : String := "34679"
def UPPERCASE_NUMBERS_UNSAFE : String := "01258"
def UPPERCASE_LETTERS_SAFE : String := "ACDEFGHKLMNPRTUVWXY"
def UPPERCASE_LETTERS_UNSAFE : String := "BIJOQSZ"

def LOWERCASE_NUMBERS_SAFE : String := "347"
def LOWERCASE_NUMBERS_UNSAFE : String := "0125689"
def LOWERCASE_LETTERS_SAFE : String := "acdefhjkmnprtuvwxy"
def LOWERCASE_LETTERS_UNSAFE : String := "bgiloqsz"

def NUMBERS : String := "0123456789"

def SAFE_NUMBERS : String := UPPERCASE_NUMBERS_SAFE ++ LOWERCASE_NUMBERS_SAFE
def SAFE_UPPERCASE : String := UPPERCASE_LETTERS_SAFE
def SAFE_LOWERCASE : String := LOWERCASE_LETTERS_SAFE

def UNSAFE_NUMBERS : String := UPPERCASE_NUMBERS_UNSAFE ++ LOWERCASE_NUMBERS_UNSAFE
def UNSAFE_UPPERCASE : String := UPPERCASE_LETTERS_UNSAFE
def UNSAFE_LOWERCASE : String := LOWERCASE_LETTERS_UNSAFE

/-- The ALPHABET_CONFIG dict of alphabets.py, as an association list in the
source's insertion order. -/
def ALPHABET_CONFIG : List (String × String) :=
  [("safe", SAFE_UPPERCASE ++ SAFE_LOWERCASE ++ LOWERCASE_NUMBERS_SAFE),
   ("unsafe", SAFE_NUMBERS ++ UNSAFE_NUMBERS ++ SAFE_UPPERCASE ++ UNSAFE_UPPERCASE
      ++ SAFE_LOWERCASE ++ UNSAFE_LOWERCASE),
   ("numbers", NUMBERS),
   ("safe_letters", SAFE_UPPERCASE ++ SAFE_LOWERCASE),
   ("safe_letters_uppercase", SAFE_UPPERCASE),
   ("safe_letters_lowercase", SAFE_LOWERCASE),
   ("safe_letters_uppercase_and_numbers", SAFE_UPPERCASE ++ UPPERCASE_NUMBERS_SAFE),
   ("safe_letters_lowercase_and_numbers", SAFE_LOWERCASE ++ LOWERCASE_NUMBERS_SAFE)]

/- ===== helpers.py ===== -/

/-- Python truthiness of an optional string argument: None and the empty
string are falsy, every other string is truthy. -/
def truthy : Option String → Bool
  | none => false
  | some s => !s.isEmpty

/-- Embedding of helpers.get_alphabet_characters.  A Python argument that may
be None is an Option String; Python `if alphabet:` is the truthiness test.
The raised ValueError becomes Except.error carrying the message. -/
def get_alphabet_characters (alphabet : Option String)
    (alphabet_predefined : Option String) : Except String String :=
  if truthy alphabet then
    .ok (alphabet.getD "")
  else
    if truthy alphabet_predefined then
      match List.lookup (alphabet_predefined.getD "") ALPHABET_CONFIG with
      | some chars => .ok chars
      | none => .error ("Predefined alphabet '" ++ alphabet_predefined.getD ""
          ++ "' does not exist. Please choose a valid predefined alphabet.")
    else
      .ok ((List.lookup "safe" ALPHABET_CONFIG).getD "")

example : get_alphabet_characters (some "ABC123") none = .ok "ABC123" := by decide
example : get_alphabet_characters none (some "numbers") = .ok "0123456789" := by decide
example : get_alphabet_characters none none
    = .ok "ACDEFGHKLMNPRTUVWXYacdefhjkmnprtuvwxy347" := by decide

/- ===== fields.py ===== -/

/-- The keyword arguments consumed by NanoIDField.__init__.  A field is none
when the key is absent from kwargs.  For alphabet_predefined the inner Option
distinguishes a Python None value from a string, because kwargs.pop defaults
to 'safe' only when the key is absent; for alphabet, absent and None are
indistinguishable (both pop to None). -/
structure NanoIDKwargs where
  alphabet : Option String
  alphabet_predefined : Option (Option String)
  size : Option Nat
  editable : Option Bool
  unique : Option Bool
deriving DecidableEq

/-- The attributes of a NanoIDField instance that __init__ establishes. -/
structure NanoIDField where
  alphabet : Option String
  alphabet_predefined : Option String
  size : Nat
  max_length : Nat
  editable : Bool
  unique : Bool
deriving DecidableEq

/-- Embedding of NanoIDField.__init__.  settingsSize models
getattr(settings, 'NANOID_SIZE', 5): some n when the setting exists. -/
def NanoIDField.init (settingsSize : Option Nat) (kw : NanoIDKwargs) : NanoIDField :=
  let alphabet := kw.alphabet
  let alphabet_predefined :=
    if truthy alphabet then kw.alphabet_predefined.getD none
    else kw.alphabet_predefined.getD (some "safe")
  let size := kw.size.getD (settingsSize.getD 5)
  { alphabet := alphabet
    alphabet_predefined := alphabet_predefined
    size := size
    max_length := size
    editable := kw.editable.getD false
    unique := kw.unique.getD true }

/-- Embedding of NanoIDField.nanoid.  The third-party nanoid.generate is an
oracle parameter (it is the source of randomness); a ValueError from
get_alphabet_characters propagates. -/
def NanoIDField.nanoid (generate : String → Nat → String) (f : NanoIDField) :
    Except String String :=
  match get_alphabet_characters f.alphabet f.alphabet_predefined with
  | .ok chars => .ok (generate chars f.size)
  | .error e => .error e

/-- A value stored in a kwargs dict by NanoIDField.deconstruct. -/
inductive KwVal
  | str (s : Option String)
  | nat (n : Nat)
  | bool (b : Bool)
deriving DecidableEq

/-- Dict assignment kwargs[k] = v, on an association-list model of the dict. -/
def setKw (k : String) (v : KwVal) (kws : List (String × KwVal)) :
    List (String × KwVal) :=
  (k, v) :: kws.filter (fun p => p.1 != k)

/-- Dict removal kwargs.pop(k, None). -/
def popKw (k : String) (kws : List (String × KwVal)) : List (String × KwVal) :=
  kws.filter (fun p => p.1 != k)

/-- Embedding of NanoIDField.deconstruct.  superKwargs is whatever kwargs
dict super().deconstruct() produced; the method then stores the six keys and
pops 'default', in source order. -/
def NanoIDField.deconstruct (f : NanoIDField)
    (superKwargs : List (String × KwVal)) : List (String × KwVal) :=
  popKw "default"
    (setKw "max_length" (.nat f.max_length)
      (setKw "unique" (.bool f.unique)
        (setKw "editable" (.bool f.editable)
          (setKw "size" (.nat f.size)
            (setKw "alphabet_predefined" (.str f.alphabet_predefined)
              (setKw "alphabet" (.str f.alphabet) superKwargs))))))

/-- Reading a deconstructed kwargs dict back into the keyword arguments that
NanoIDField.__init__ consumes (passing the dict to the constructor). -/
def kwargsToNanoKwargs (kws : List (String × KwVal)) : NanoIDKwargs :=
  { alphabet :=
      match List.lookup "alphabet" kws with
      | some (.str s) => s
      | _ => none
    alphabet_predefined :=
      match List.lookup "alphabet_predefined" kws with
      | some (.str s) => some s
      | _ => none
    size :=
      match List.lookup "size" kws with
      | some (.nat n) => some n
      | _ => none
    editable :=
      match List.lookup "editable" kws with
      | some (.bool b) => some b
      | _ => none
    unique :=
      match List.lookup "unique" kws with
      | some (.bool b) => some b
      | _ => none }

/- ===== mixins.py ===== -/

/-- A model field as seen by UniqueNanoIDMixin: its name, its unique flag and
whether it is a NanoIDField (hasattr(field, 'nanoid')). -/
structure ModelField where
  name : String
  unique : Bool
  isNano : Bool
deriving DecidableEq

/-- A model instance: the truthiness of self.pk and the field values
(an association list; a looked-up value of none is Python None). -/
structure MInstance where
  pk : Bool
  vals : List (String × Option String)
deriving DecidableEq

/-- getattr(self, n) for a field value. -/
def getVal (inst : MInstance) (n : String) : Option String :=
  match List.lookup n inst.vals with
  | some v => v
  | none => none

/-- setattr(self, n, v). -/
def setVal (inst : MInstance) (n : String) (v : Option String) : MInstance :=
  { inst with vals := (n, v) :: inst.vals }

/-- Embedding of UniqueNanoIDMixin.get_unique_nanoid_fields. -/
def get_unique_nanoid_fields (flds : List ModelField) : List String :=
  (flds.filter (fun f => f.unique && f.isNano)).map (fun f => f.name)

/-- Embedding of UniqueNanoIDMixin.get_all_nanoid_fields. -/
def get_all_nanoid_fields (flds : List ModelField) : List String :=
  (flds.filter (fun f => f.isNano)).map (fun f => f.name)

/-- UniqueNanoIDMixin.nanoid_max_attempts. -/
def nanoid_max_attempts : Nat := 10

/-- The first pass of ensure_unique_nanoids: the fields_to_generate list.
db n v models type(self).objects.filter(n=v).exists(). -/
def fieldsToGenerate (flds : List ModelField) (db : String → String → Bool)
    (inst : MInstance) : List String :=
  (get_unique_nanoid_fields flds).filter (fun n =>
    match getVal inst n with
    | none => true
    | some v => !inst.pk && db n v)

/-- The per-field collision-retry loop of ensure_unique_nanoids
(for _ in range(nanoid_max_attempts): generate; break unless taken; else
raise).  db is the existence check for this field, g i the NanoID generated
on attempt i; fuel counts the remaining attempts and start the next attempt
index, so the loop is entered with fuel = nanoid_max_attempts and start = 0.
none models the for-else raise ValueError. -/
def generateLoop (db : String → Bool) (g : Nat → String) :
    Nat → Nat → Option String
  | 0, _ => none
  | fuel + 1, start =>
    let v := g start
    if db v then generateLoop db g fuel (start + 1) else some v

/-- The second pass of ensure_unique_nanoids, over the fields_to_generate
list; Except.error carries the field name whose retries were exhausted. -/
def ensureGo (db : String → String → Bool) (gen : String → Nat → String) :
    List String → MInstance → Except String MInstance
  | [], inst => .ok inst
  | n :: rest, inst =>
    match generateLoop (db n) (gen n) nanoid_max_attempts 0 with
    | some v => ensureGo db gen rest (setVal inst n (some v))
    | none => .error n

/-- Embedding of UniqueNanoIDMixin.ensure_unique_nanoids.  gen n i is the
NanoID that field n's generator returns on its i-th call (the randomness
oracle); db n v is the existence query on the backing table, which no code
in this method mutates. -/
def ensure_unique_nanoids (flds : List ModelField)
    (db : String → String → Bool) (gen : String → Nat → String)
    (inst : MInstance) : Except String MInstance :=
  ensureGo db gen (fieldsToGenerate flds db inst) inst

/-- The exception escaping UniqueNanoIDMixin.save: the ValueError of
ensure_unique_nanoids (with its field name) or an IntegrityError from the
second super().save(). -/
inductive SaveError
  | integrity
  | valueError (field : String)
deriving DecidableEq

/-- Observable calls made by UniqueNanoIDMixin.save, in order. -/
inductive SaveEvent
  | ensureCall
  | superSaveCall
deriving DecidableEq

/-- Embedding of UniqueNanoIDMixin.save.  DbT is the abstract committed
database state; queries inside the transaction read the snapshot
exq db0 (nothing is committed while the transaction runs).  superSaveOk k
tells whether the k-th super().save() raises IntegrityError, commit k the
effect of that save when it succeeds, and gen k the randomness oracle used
by the k-th ensure_unique_nanoids call.  The returned DbT is the state after
transaction.atomic: db0 (rolled back) whenever the result is an error. -/
def mixinSave {DbT : Type} (flds : List ModelField)
    (exq : DbT → String → String → Bool) (commit : Nat → DbT → DbT)
    (superSaveOk : Nat → Bool) (gen : Nat → String → Nat → String)
    (db0 : DbT) (inst : MInstance) :
    Except SaveError MInstance × List SaveEvent × DbT :=
  match ensure_unique_nanoids flds (exq db0) (gen 0) inst with
  | .error f => (.error (.valueError f), [.ensureCall], db0)
  | .ok inst1 =>
    if superSaveOk 0 then
      (.ok inst1, [.ensureCall, .superSaveCall], commit 0 db0)
    else
      match ensure_unique_nanoids flds (exq db0) (gen 1) inst1 with
      | .error f =>
        (.error (.valueError f), [.ensureCall, .superSaveCall, .ensureCall], db0)
      | .ok inst2 =>
        if superSaveOk 1 then
          (.ok inst2, [.ensureCall, .superSaveCall, .ensureCall, .superSaveCall],
            commit 1 db0)
        else
          (.error .integrity,
            [.ensureCall, .superSaveCall, .ensureCall, .superSaveCall], db0)

/-- One entry of self._meta.related_objects as regenerate_nanoid inspects it:
whether related_object.field.related_model is this model class, the FK's
to_fields[0], and the related table's FK column (one entry per record,
holding the referenced to_field value, or none for NULL). -/
structure RelatedObject where
  pointsAtSelf : Bool
  toField : String
  rows : List (Option String)
deriving DecidableEq

/-- The state regenerate_nanoid works on: the instance and the related
tables. -/
structure RegenState where
  inst : MInstance
  related : List RelatedObject
deriving DecidableEq

/-- The exceptions regenerate_nanoid can raise. -/
inductive RegenError
  | notNanoField
  | primaryKey
  | cancelled
  | saveFailed (e : SaveError)
deriving DecidableEq

/-- field_instance.unique for _meta.get_field(n). -/
def fieldUnique (flds : List ModelField) (n : String) : Bool :=
  match flds.find? (fun f => f.name = n) with
  | some f => f.unique
  | none => false

/-- Python str.lower restricted to ASCII (all characters appearing in this
development are ASCII). -/
def pyLower (s : String) : String :=
  String.mk (s.data.map Char.toLower)

/-- Embedding of UniqueNanoIDMixin.regenerate_nanoid.  confirmInput is what
input() returns; genOnce n the single field_instance.nanoid() call of the
non-unique branch; the save oracles are those of mixinSave.  The filter on
f"fk__field_name" = old_value compares the related table's FK column (which
stores the to_field value) with old_value, and update(fk=self) writes self's
regenerated to_field value into that column. -/
def regenerate_nanoid {DbT : Type} (flds : List ModelField) (pkName : String)
    (exq : DbT → String → String → Bool) (commit : Nat → DbT → DbT)
    (superSaveOk : Nat → Bool) (gen : Nat → String → Nat → String)
    (genOnce : String → String) (confirmInput : String) (db0 : DbT)
    (st : RegenState) (field_name : String) (force : Bool) :
    Except RegenError RegenState :=
  if field_name ∉ get_all_nanoid_fields flds then
    .error .notNanoField
  else if field_name = pkName then
    .error .primaryKey
  else if !force && pyLower confirmInput != "y" then
    .error .cancelled
  else
    match (mixinSave flds exq commit superSaveOk gen db0
        (if fieldUnique flds field_name then setVal st.inst field_name none
         else setVal st.inst field_name (some (genOnce field_name)))).1 with
    | .error e => .error (.saveFailed e)
    | .ok instSaved =>
      .ok { inst := instSaved,
            related := st.related.map (fun ro =>
              if ro.pointsAtSelf && ro.toField == field_name then
                { ro with rows := ro.rows.map (fun r =>
                    if r == getVal st.inst field_name
                    then getVal instSaved field_name else r) }
              else ro) }

/- ===== upload.py ===== -/

/-- One pass of re.sub applied to the pattern matching a question mark
followed by greedy dot-star, with the empty replacement: Python '.' does not
match a newline, so each match runs from a '?' to the end of its line.  The
Bool is true while inside a match (skipping); the terminating newline is not
part of the match and is kept. -/
def stripQSAux : List Char → Bool → List Char
  | [], _ => []
  | c :: rest, true =>
    if c = '\n' then c :: stripQSAux rest false
    else stripQSAux rest true
  | c :: rest, false =>
    if c = '?' then stripQSAux rest true
    else c :: stripQSAux rest false

/-- The re.sub call of _upload_to_nanoid_impl removing query strings from the
filename. -/
def stripQueryStrings (s : String) : String :=
  String.mk (stripQSAux s.data false)

example : stripQueryStrings "photo.jpg?v=12" = "photo.jpg" := by decide
example : stripQueryStrings "a?b" ++ "" = "a" := by decide
example : stripQueryStrings ("a?b" ++ "\n" ++ "c?d") = "a" ++ "\n" ++ "c" := by decide

/-- str.rfind for a single character, as an Option index. -/
def rfindChar (l : List Char) (c : Char) : Option Nat :=
  match List.findIdx? (fun x => x = c) l.reverse with
  | none => none
  | some i => some (l.length - 1 - i)

/-- The part of the path after the last '/' (everything when there is no
'/'), as os.path.splitext computes it on POSIX. -/
def basenamePart (l : List Char) : List Char :=
  match rfindChar l '/' with
  | none => l
  | some s => l.drop (s + 1)

/-- os.path.splitext(p)[-1] on POSIX: the extension starts at the last dot
of the basename, unless every character before that dot in the basename is
itself a dot (leading dots, as in '.bashrc', yield no extension). -/
def splitextExt (p : String) : String :=
  let base := basenamePart p.data
  match rfindChar base '.' with
  | none => ""
  | some d =>
    if (base.take d).any (fun c => c ≠ '.') then String.mk (base.drop d)
    else ""

example : splitextExt "dir/archive.tar.gz" = ".gz" := by decide
example : splitextExt ".bashrc" = "" := by decide
example : splitextExt "dir.d/noext" = "" := by decide
example : splitextExt "a...b.c" = ".c" := by decide
example : splitextExt "..." = "" := by decide

/-- str.replace(' ', '_'): every space becomes an underscore. -/
def underscoreSpaces (s : String) : String :=
  String.mk (s.data.map (fun c => if c = ' ' then '_' else c))

/-- Whether a path string starts with the POSIX separator '/'. -/
def startsWithSep (s : String) : Bool :=
  match s.data with
  | '/' :: _ => true
  | _ => false

/-- Whether a path string ends with the POSIX separator '/'. -/
def endsWithSep (s : String) : Bool :=
  match s.data.getLast? with
  | some '/' => true
  | _ => false

/-- os.path.join of two components on POSIX: an absolute second component
discards the first, otherwise a '/' separator is inserted unless the first
component is empty or already ends in '/'. -/
def osPathJoin2 (a b : String) : String :=
  if startsWithSep b then b
  else if a.data.isEmpty || endsWithSep a then a ++ b
  else a ++ "/" ++ b

example : osPathJoin2 "up" "x.txt" = "up/x.txt" := by decide
example : osPathJoin2 "up/" "x" = "up/x" := by decide
example : osPathJoin2 "" "x" = "x" := by decide

/-- The unique_path construction inside the loop of _upload_to_nanoid_impl,
for one generated NanoID: either path/nanoid/sanitized-filename or
path/(nanoid + lowercased extension). -/
def mkUniquePath (path filename : String) (preserve : Bool) (nid : String) :
    String :=
  if preserve then
    osPathJoin2 (osPathJoin2 path nid) (underscoreSpaces filename)
  else
    osPathJoin2 path (nid ++ pyLower (splitextExt filename))

/-- The while attempts < 10 loop of _upload_to_nanoid_impl: fuel is
10 - attempts (so the loop is entered with fuel 10, attempts 0), g the
per-attempt NanoID oracle, st the default_storage.exists check, mk the
unique_path construction.  none models falling out of the loop and raising
ValueError. -/
def uploadLoop (st : String → Bool) (mk : String → String) (g : Nat → String) :
    Nat → Nat → Option String
  | 0, _ => none
  | fuel + 1, attempts =>
    let p := mk (g attempts)
    if st p then uploadLoop st mk g fuel (attempts + 1) else some p

/-- Embedding of _upload_to_nanoid_impl.  st is default_storage.exists, g i
the NanoID generated on attempt i (the generate call with the configured
alphabet and size). -/
def upload_to_nanoid_impl (st : String → Bool) (g : Nat → String)
    (path filename : String)
    (preserve_original_filename remove_query_strings : Bool) : Option String :=
  let filename :=
    if remove_query_strings then stripQueryStrings filename else filename
  uploadLoop st (mkUniquePath path filename preserve_original_filename) g 10 0

example :
    upload_to_nanoid_impl (fun _ => false) (fun _ => "XYZ") "up" "Photo 1.JPG"
      false true = some "up/XYZ.jpg" := by decide
example :
    upload_to_nanoid_impl (fun _ => false) (fun _ => "XYZ") "up" "Photo 1.JPG"
      true true = some ("up/XYZ/Photo" ++ "_" ++ "1.JPG") := by decide
example :
    upload_to_nanoid_impl (fun _ => true) (fun _ => "XYZ") "up" "a.png"
      false true = none := by decide

/- ===== Lemmas about the collision-retry loops ===== -/

theorem generateLoop_eq_none_iff (db : String → Bool) (g : Nat → String) :
    ∀ fuel start, generateLoop db g fuel start = none ↔
      ∀ i, start ≤ i → i < start + fuel → db (g i) = true := by
  intro fuel
  induction fuel with
  | zero =>
    intro start
    constructor
    · intro _ i h1 h2
      omega
    · intro _
      rfl
  | succ n ih =>
    intro start
    simp only [generateLoop]
    by_cases hd : db (g start) = true
    · rw [if_pos hd]
      rw [ih (start + 1)]
      constructor
      · intro h i h1 h2
        rcases Nat.eq_or_lt_of_le h1 with heq | hlt
        · rw [← heq]
          exact hd
        · exact h i hlt (by omega)
      · intro h i h1 h2
        exact h i (by omega) (by omega)
    · rw [if_neg hd]
      constructor
      · intro h
        exact absurd h (by simp)
      · intro h
        exact absurd (h start (Nat.le_refl start) (by omega)) hd

theorem generateLoop_eq_some (db : String → Bool) (g : Nat → String) :
    ∀ fuel start v, generateLoop db g fuel start = some v →
      ∃ i, start ≤ i ∧ i < start + fuel ∧ v = g i ∧ db (g i) = false ∧
        ∀ j, start ≤ j → j < i → db (g j) = true := by
  intro fuel
  induction fuel with
  | zero =>
    intro start v h
    exact absurd h (by simp [generateLoop])
  | succ n ih =>
    intro start v h
    simp only [generateLoop] at h
    by_cases hd : db (g start) = true
    · rw [if_pos hd] at h
      obtain ⟨i, hi1, hi2, hi3, hi4, hi5⟩ := ih (start + 1) v h
      refine ⟨i, by omega, by omega, hi3, hi4, ?_⟩
      intro j hj1 hj2
      rcases Nat.eq_or_lt_of_le hj1 with heq | hlt
      · rw [← heq]
        exact hd
      · exact hi5 j hlt hj2
    · rw [if_neg hd] at h
      refine ⟨start, Nat.le_refl start, by omega, by injection h with h; exact h.symm,
        by simpa using hd, ?_⟩
      intro j hj1 hj2
      omega

theorem generateLoop_congr (db : String → Bool) (g g' : Nat → String) :
    ∀ fuel start, (∀ i, start ≤ i → i < start + fuel → g i = g' i) →
      generateLoop db g fuel start = generateLoop db g' fuel start := by
  intro fuel
  induction fuel with
  | zero =>
    intro start _
    rfl
  | succ n ih =>
    intro start h
    simp only [generateLoop]
    rw [h start (Nat.le_refl start) (by omega)]
    by_cases hd : db (g' start) = true
    · rw [if_pos hd, if_pos hd]
      exact ih (start + 1) (fun i h1 h2 => h i (by omega) (by omega))
    · rw [if_neg hd, if_neg hd]

theorem uploadLoop_eq_none_iff (st : String → Bool) (mk : String → String)
    (g : Nat → String) :
    ∀ fuel start, uploadLoop st mk g fuel start = none ↔
      ∀ i, start ≤ i → i < start + fuel → st (mk (g i)) = true := by
  intro fuel
  induction fuel with
  | zero =>
    intro start
    constructor
    · intro _ i h1 h2
      omega
    · intro _
      rfl
  | succ n ih =>
    intro start
    simp only [uploadLoop]
    by_cases hd : st (mk (g start)) = true
    · rw [if_pos hd]
      rw [ih (start + 1)]
      constructor
      · intro h i h1 h2
        rcases Nat.eq_or_lt_of_le h1 with heq | hlt
        · rw [← heq]
          exact hd
        · exact h i hlt (by omega)
      · intro h i h1 h2
        exact h i (by omega) (by omega)
    · rw [if_neg hd]
      constructor
      · intro h
        exact absurd h (by simp)
      · intro h
        exact absurd (h start (Nat.le_refl start) (by omega)) hd

theorem uploadLoop_eq_some (st : String → Bool) (mk : String → String)
    (g : Nat → String) :
    ∀ fuel start p, uploadLoop st mk g fuel start = some p →
      ∃ i, start ≤ i ∧ i < start + fuel ∧ p = mk (g i) ∧ st (mk (g i)) = false ∧
        ∀ j, start ≤ j → j < i → st (mk (g j)) = true := by
  intro fuel
  induction fuel with
  | zero =>
    intro start p h
    exact absurd h (by simp [uploadLoop])
  | succ n ih =>
    intro start p h
    simp only [uploadLoop] at h
    by_cases hd : st (mk (g start)) = true
    · rw [if_pos hd] at h
      obtain ⟨i, hi1, hi2, hi3, hi4, hi5⟩ := ih (start + 1) p h
      refine ⟨i, by omega, by omega, hi3, hi4, ?_⟩
      intro j hj1 hj2
      rcases Nat.eq_or_lt_of_le hj1 with heq | hlt
      · rw [← heq]
        exact hd
      · exact hi5 j hlt hj2
    · rw [if_neg hd] at h
      refine ⟨start, Nat.le_refl start, by omega, by injection h with h; exact h.symm,
        by simpa using hd, ?_⟩
      intro j hj1 hj2
      omega

theorem uploadLoop_congr (st : String → Bool) (mk : String → String)
    (g g' : Nat → String) :
    ∀ fuel start, (∀ i, start ≤ i → i < start + fuel → g i = g' i) →
      uploadLoop st mk g fuel start = uploadLoop st mk g' fuel start := by
  intro fuel
  induction fuel with
  | zero =>
    intro start _
    rfl
  | succ n ih =>
    intro start h
    simp only [uploadLoop]
    rw [h start (Nat.le_refl start) (by omega)]
    by_cases hd : st (mk (g' start)) = true
    · rw [if_pos hd, if_pos hd]
      exact ih (start + 1) (fun i h1 h2 => h i (by omega) (by omega))
    · rw [if_neg hd, if_neg hd]

/- ===== Lemmas about instances and ensure_unique_nanoids ===== -/

theorem getVal_setVal (inst : MInstance) (n m : String) (v : Option String) :
    getVal (setVal inst n v) m = if m = n then v else getVal inst m := by
  by_cases h : m = n
  · subst h
    simp [getVal, setVal, List.lookup]
  · have hb : (m == n) = false := beq_eq_false_iff_ne.mpr h
    simp [getVal, setVal, List.lookup, hb, h]

theorem ensureGo_error_iff (db : String → String → Bool)
    (gen : String → Nat → String) :
    ∀ (L : List String) (inst : MInstance),
      (∃ f, ensureGo db gen L inst = .error f) ↔
        ∃ n ∈ L, generateLoop (db n) (gen n) nanoid_max_attempts 0 = none := by
  intro L
  induction L with
  | nil =>
    intro inst
    simp [ensureGo]
  | cons m rest ih =>
    intro inst
    simp only [ensureGo]
    cases hloop : generateLoop (db m) (gen m) nanoid_max_attempts 0 with
    | none =>
      constructor
      · intro _
        exact ⟨m, List.mem_cons_self m rest, hloop⟩
      · intro _
        exact ⟨m, rfl⟩
    | some v =>
      rw [ih (setVal inst m (some v))]
      constructor
      · rintro ⟨n, hn, hl⟩
        exact ⟨n, List.mem_cons_of_mem m hn, hl⟩
      · rintro ⟨n, hn, hl⟩
        rcases List.mem_cons.mp hn with heq | hmem
        · subst heq
          rw [hloop] at hl
          cases hl
        · exact ⟨n, hmem, hl⟩

theorem ensureGo_frame (db : String → String → Bool)
    (gen : String → Nat → String) :
    ∀ (L : List String) (inst inst' : MInstance),
      ensureGo db gen L inst = .ok inst' →
        ∀ n, n ∉ L → getVal inst' n = getVal inst n := by
  intro L
  induction L with
  | nil =>
    intro inst inst' h n _
    injection h with h
    rw [h]
  | cons m rest ih =>
    intro inst inst' h n hn
    simp only [ensureGo] at h
    cases hloop : generateLoop (db m) (gen m) nanoid_max_attempts 0 with
    | none =>
      rw [hloop] at h
      cases h
    | some v =>
      rw [hloop] at h
      have hn1 : n ≠ m := fun hc => hn (hc ▸ List.mem_cons_self m rest)
      have hn2 : n ∉ rest := fun hc => hn (List.mem_cons_of_mem m hc)
      rw [ih _ _ h n hn2, getVal_setVal, if_neg hn1]

theorem ensureGo_mem (db : String → String → Bool)
    (gen : String → Nat → String) :
    ∀ (L : List String) (inst inst' : MInstance),
      ensureGo db gen L inst = .ok inst' →
        ∀ n ∈ L, ∃ v, generateLoop (db n) (gen n) nanoid_max_attempts 0 = some v ∧
          getVal inst' n = some v := by
  intro L
  induction L with
  | nil =>
    intro inst inst' _ n hn
    cases hn
  | cons m rest ih =>
    intro inst inst' h n hn
    simp only [ensureGo] at h
    cases hloop : generateLoop (db m) (gen m) nanoid_max_attempts 0 with
    | none =>
      rw [hloop] at h
      cases h
    | some v =>
      rw [hloop] at h
      by_cases hr : n ∈ rest
      · exact ih _ _ h n hr
      · have heq : n = m := by
          rcases List.mem_cons.mp hn with heq | hmem
          · exact heq
          · exact absurd hmem hr
        subst heq
        refine ⟨v, hloop, ?_⟩
        rw [ensureGo_frame db gen rest _ _ h n hr, getVal_setVal, if_pos rfl]

theorem ensureGo_congr (db : String → String → Bool)
    (gen gen' : String → Nat → String)
    (h : ∀ n i, i < nanoid_max_attempts → gen n i = gen' n i) :
    ∀ (L : List String) (inst : MInstance),
      ensureGo db gen L inst = ensureGo db gen' L inst := by
  intro L
  induction L with
  | nil =>
    intro inst
    rfl
  | cons m rest ih =>
    intro inst
    simp only [ensureGo]
    rw [generateLoop_congr (db m) (gen m) (gen' m) nanoid_max_attempts 0
      (fun i h1 h2 => h m i (by omega))]
    cases generateLoop (db m) (gen' m) nanoid_max_attempts 0 with
    | none => rfl
    | some v => exact ih _

/- ===== Lemmas about kwargs dicts ===== -/

theorem lookup_filter_ne (k k' : String) (l : List (String × KwVal)) (h : k ≠ k') :
    List.lookup k (l.filter (fun p => p.1 != k')) = List.lookup k l := by
  induction l with
  | nil => rfl
  | cons p rest ih =>
    obtain ⟨a, b⟩ := p
    rw [List.filter_cons]
    by_cases hp : a = k'
    · have hpred : ((a, b).1 != k') = false := by simp [hp]
      rw [hpred]
      have hk : (k == a) = false := beq_eq_false_iff_ne.mpr (fun hc => h (hc.trans hp))
      simp [List.lookup, hk, ih]
    · have hpred : ((a, b).1 != k') = true := by simp [hp]
      rw [hpred]
      cases hk : k == a with
      | true => simp [List.lookup, hk]
      | false => simp [List.lookup, hk, ih]

theorem lookup_setKw_self (k : String) (v : KwVal) (l : List (String × KwVal)) :
    List.lookup k (setKw k v l) = some v := by
  simp [setKw, List.lookup]

theorem lookup_setKw_ne (k k' : String) (v : KwVal) (l : List (String × KwVal))
    (h : k ≠ k') : List.lookup k (setKw k' v l) = List.lookup k l := by
  have hk : (k == k') = false := beq_eq_false_iff_ne.mpr h
  simp only [setKw, List.lookup, hk]
  exact lookup_filter_ne k k' l h

theorem lookup_popKw_self (k : String) (l : List (String × KwVal)) :
    List.lookup k (popKw k l) = none := by
  induction l with
  | nil => rfl
  | cons p rest ih =>
    obtain ⟨a, b⟩ := p
    rw [popKw, List.filter_cons]
    by_cases hp : a = k
    · have hpred : ((a, b).1 != k) = false := by simp [hp]
      rw [hpred]
      simpa [popKw] using ih
    · have hpred : ((a, b).1 != k) = true := by simp [hp]
      rw [hpred]
      have hk : (k == a) = false := beq_eq_false_iff_ne.mpr (fun hc => hp hc.symm)
      simpa [List.lookup, hk, popKw] using ih

theorem lookup_popKw_ne (k k' : String) (l : List (String × KwVal)) (h : k ≠ k') :
    List.lookup k (popKw k' l) = List.lookup k l :=
  lookup_filter_ne k k' l h

/- ===== Claim C4 ===== -/

/-- C4, counterexample: with neither argument given, get_alphabet_characters
returns the 'safe' entry of ALPHABET_CONFIG, which is the string
'ACDEFGHKLMNPRTUVWXYacdefhjkmnprtuvwxy347' (letters first, digits last) and
not the string '347ACDEFGHKLMNPRTUVWXYacdefhjkmnprtuvwxy' that the claim
names, so the claim fails on the default branch. -/
theorem get_alphabet_characters_safe_order_counterexample :
    get_alphabet_characters none none
        = .ok "ACDEFGHKLMNPRTUVWXYacdefhjkmnprtuvwxy347"
      ∧ get_alphabet_characters none none
        ≠ .ok "347ACDEFGHKLMNPRTUVWXYacdefhjkmnprtuvwxy" := by
  constructor
  · decide
  · decide

/-- C4 (amended): get_alphabet_characters selects the character set by a
fixed priority: a non-empty custom alphabet argument is returned as-is;
otherwise, if a non-empty predefined-alphabet name is given, the
corresponding entry of ALPHABET_CONFIG is returned when the name is a key of
that table and ValueError is raised when it is not; otherwise the 'safe'
alphabet 'ACDEFGHKLMNPRTUVWXYacdefhjkmnprtuvwxy347' (the same forty
characters as the claim's string, with the digits 347 at the end instead of
the front) is returned. -/
theorem get_alphabet_characters_priority_amended (a ap : Option String) :
    (∀ s : String, a = some s → truthy a = true →
      get_alphabet_characters a ap = .ok s)
    ∧ (truthy a = false → truthy ap = true →
        (∀ chars, List.lookup (ap.getD "") ALPHABET_CONFIG = some chars →
          get_alphabet_characters a ap = .ok chars)
        ∧ (List.lookup (ap.getD "") ALPHABET_CONFIG = none →
          ∃ e, get_alphabet_characters a ap = .error e))
    ∧ (truthy a = false → truthy ap = false →
        get_alphabet_characters a ap
          = .ok "ACDEFGHKLMNPRTUVWXYacdefhjkmnprtuvwxy347") := by
  refine ⟨?_, ?_, ?_⟩
  · intro s hs ht
    subst hs
    simp [get_alphabet_characters, ht]
  · intro hf ht
    constructor
    · intro chars hc
      simp [get_alphabet_characters, hf, ht, hc]
    · intro hc
      refine ⟨"Predefined alphabet '" ++ ap.getD ""
        ++ "' does not exist. Please choose a valid predefined alphabet.", ?_⟩
      simp [get_alphabet_characters, hf, ht, hc]
  · intro hf hf2
    simp only [get_alphabet_characters, hf, hf2, Bool.false_eq_true, if_false]
    decide

/-- Witness for the amended C4: each branch of the priority at a concrete
input. -/
theorem get_alphabet_characters_priority_amended_witness :
    get_alphabet_characters (some "ABC123") none = .ok "ABC123"
    ∧ get_alphabet_characters none (some "numbers") = .ok "0123456789"
    ∧ (∃ e, get_alphabet_characters none (some "nope") = .error e)
    ∧ get_alphabet_characters none none
        = .ok "ACDEFGHKLMNPRTUVWXYacdefhjkmnprtuvwxy347" := by
  refine ⟨?_, ?_, ?_, ?_⟩
  · exact (get_alphabet_characters_priority_amended (some "ABC123") none).1
      "ABC123" rfl (by decide)
  · exact ((get_alphabet_characters_priority_amended none (some "numbers")).2.1
      (by decide) (by decide)).1 "0123456789" (by decide)
  · exact ((get_alphabet_characters_priority_amended none (some "nope")).2.1
      (by decide) (by decide)).2 (by decide)
  · exact (get_alphabet_characters_priority_amended none none).2.2
      (by decide) (by decide)

/- ===== Claim C5 ===== -/

/-- C5 (confirmed): NanoIDField.deconstruct returns a kwargs dict containing
the field's current alphabet, alphabet_predefined, size, editable, unique
and max_length values and never a 'default' key, and re-running __init__ on
those kwargs reproduces a field whose six attributes equal the original's
(deconstruct/construct round-trip, for any field built by __init__, any
NANOID_SIZE settings on either side, and any kwargs dict coming from
super().deconstruct()). -/
theorem deconstruct_roundtrip (s0 s1 : Option Nat) (kw0 : NanoIDKwargs)
    (superKwargs : List (String × KwVal)) :
    let f := NanoIDField.init s0 kw0
    let d := f.deconstruct superKwargs
    let f2 := NanoIDField.init s1 (kwargsToNanoKwargs d)
    (List.lookup "alphabet" d = some (.str f.alphabet)
      ∧ List.lookup "alphabet_predefined" d = some (.str f.alphabet_predefined)
      ∧ List.lookup "size" d = some (.nat f.size)
      ∧ List.lookup "editable" d = some (.bool f.editable)
      ∧ List.lookup "unique" d = some (.bool f.unique)
      ∧ List.lookup "max_length" d = some (.nat f.max_length)
      ∧ List.lookup "default" d = none)
    ∧ (f2.alphabet = f.alphabet
      ∧ f2.alphabet_predefined = f.alphabet_predefined
      ∧ f2.size = f.size ∧ f2.max_length = f.max_length
      ∧ f2.editable = f.editable ∧ f2.unique = f.unique) := by
  intro f d f2
  have la : List.lookup "alphabet" d = some (.str f.alphabet) := by
    show List.lookup "alphabet" (NanoIDField.deconstruct f superKwargs) = _
    rw [NanoIDField.deconstruct, lookup_popKw_ne _ _ _ (by decide),
      lookup_setKw_ne _ _ _ _ (by decide), lookup_setKw_ne _ _ _ _ (by decide),
      lookup_setKw_ne _ _ _ _ (by decide), lookup_setKw_ne _ _ _ _ (by decide),
      lookup_setKw_ne _ _ _ _ (by decide), lookup_setKw_self]
  have lp : List.lookup "alphabet_predefined" d
      = some (.str f.alphabet_predefined) := by
    show List.lookup "alphabet_predefined" (NanoIDField.deconstruct f superKwargs) = _
    rw [NanoIDField.deconstruct, lookup_popKw_ne _ _ _ (by decide),
      lookup_setKw_ne _ _ _ _ (by decide), lookup_setKw_ne _ _ _ _ (by decide),
      lookup_setKw_ne _ _ _ _ (by decide), lookup_setKw_ne _ _ _ _ (by decide),
      lookup_setKw_self]
  have ls : List.lookup "size" d = some (.nat f.size) := by
    show List.lookup "size" (NanoIDField.deconstruct f superKwargs) = _
    rw [NanoIDField.deconstruct, lookup_popKw_ne _ _ _ (by decide),
      lookup_setKw_ne _ _ _ _ (by decide), lookup_setKw_ne _ _ _ _ (by decide),
      lookup_setKw_ne _ _ _ _ (by decide), lookup_setKw_self]
  have le : List.lookup "editable" d = some (.bool f.editable) := by
    show List.lookup "editable" (NanoIDField.deconstruct f superKwargs) = _
    rw [NanoIDField.deconstruct, lookup_popKw_ne _ _ _ (by decide),
      lookup_setKw_ne _ _ _ _ (by decide), lookup_setKw_ne _ _ _ _ (by decide),
      lookup_setKw_self]
  have lu : List.lookup "unique" d = some (.bool f.unique) := by
    show List.lookup "unique" (NanoIDField.deconstruct f superKwargs) = _
    rw [NanoIDField.deconstruct, lookup_popKw_ne _ _ _ (by decide),
      lookup_setKw_ne _ _ _ _ (by decide), lookup_setKw_self]
  have lm : List.lookup "max_length" d = some (.nat f.max_length) := by
    show List.lookup "max_length" (NanoIDField.deconstruct f superKwargs) = _
    rw [NanoIDField.deconstruct, lookup_popKw_ne _ _ _ (by decide),
      lookup_setKw_self]
  have ld : List.lookup "default" d = none := by
    show List.lookup "default" (NanoIDField.deconstruct f superKwargs) = _
    rw [NanoIDField.deconstruct, lookup_popKw_self]
  have hml : f.max_length = f.size := rfl
  have hkw : kwargsToNanoKwargs d =
      { alphabet := f.alphabet
        alphabet_predefined := some f.alphabet_predefined
        size := some f.size
        editable := some f.editable
        unique := some f.unique } := by
    simp [kwargsToNanoKwargs, la, lp, ls, le, lu]
  refine ⟨⟨la, lp, ls, le, lu, lm, ld⟩, ?_⟩
  show ((NanoIDField.init s1 (kwargsToNanoKwargs d)).alphabet = f.alphabet ∧ _)
  rw [hkw]
  refine ⟨rfl, ?_, rfl, ?_, rfl, rfl⟩
  · show (if truthy f.alphabet then (some f.alphabet_predefined).getD none
      else (some f.alphabet_predefined).getD (some "safe")) = f.alphabet_predefined
    cases truthy f.alphabet <;> simp
  · show ((some f.size).getD (s1.getD 5)) = f.max_length
    rw [hml]
    rfl

/- ===== Claim C6 ===== -/

/-- C6 (confirmed): NanoIDField.nanoid is the single generate call on the
alphabet selected by get_alphabet_characters and the field's size, so
whenever the generator contract holds for that call (the generated string
has exactly the requested length and draws from the given alphabet), every
identifier the method produces is a string of exactly size characters, each
from the selected alphabet. -/
theorem nanoid_single_generate_call (generate : String → Nat → String)
    (f : NanoIDField) (chars : String)
    (hsel : get_alphabet_characters f.alphabet f.alphabet_predefined = .ok chars)
    (hlen : (generate chars f.size).length = f.size)
    (hmem : ∀ c ∈ (generate chars f.size).data, c ∈ chars.data) :
    f.nanoid generate = .ok (generate chars f.size)
    ∧ ∀ v, f.nanoid generate = .ok v →
        v.length = f.size ∧ ∀ c ∈ v.data, c ∈ chars.data := by
  have h1 : f.nanoid generate = .ok (generate chars f.size) := by
    simp [NanoIDField.nanoid, hsel]
  refine ⟨h1, ?_⟩
  intro v hv
  rw [h1] at hv
  injection hv with hv
  subst hv
  exact ⟨hlen, hmem⟩

/-- Witness for C6: a field with alphabet 'AB' and size 3 and a generator
returning 'ABA'. -/
theorem nanoid_single_generate_call_witness :
    (NanoIDField.init none
        { alphabet := some "AB", alphabet_predefined := none, size := some 3,
          editable := none, unique := none }).nanoid (fun _ _ => "ABA")
      = .ok "ABA" :=
  (nanoid_single_generate_call (fun _ _ => "ABA")
    (NanoIDField.init none
      { alphabet := some "AB", alphabet_predefined := none, size := some 3,
        editable := none, unique := none }) "AB"
    (by decide) (by decide) (by decide)).1

/- ===== Claim C1 ===== -/

/-- C1 (confirmed): both collision-retry loops (the per-field loop of
ensure_unique_nanoids and the loop of _upload_to_nanoid_impl) perform at
most 10 generation attempts — the outcome depends only on the first 10
candidates of the generation oracle — and the ValueError is raised exactly
when every one of the 10 generated candidates is found by its existence
check to already exist (for the mixin, exactly when some field in the
fields_to_generate list has all 10 of its candidates taken). -/
theorem retry_loop_bounded_and_error_iff
    (flds : List ModelField) (db : String → String → Bool)
    (gen gen' : String → Nat → String) (inst : MInstance)
    (st : String → Bool) (g g' : Nat → String) (path fn : String)
    (pr rqs : Bool) :
    ((∃ f, ensure_unique_nanoids flds db gen inst = .error f) ↔
      ∃ n ∈ fieldsToGenerate flds db inst,
        ∀ i, i < nanoid_max_attempts → db n (gen n i) = true)
    ∧ ((∀ n i, i < nanoid_max_attempts → gen n i = gen' n i) →
      ensure_unique_nanoids flds db gen inst
        = ensure_unique_nanoids flds db gen' inst)
    ∧ (upload_to_nanoid_impl st g path fn pr rqs = none ↔
      ∀ i, i < 10 →
        st (mkUniquePath path (if rqs then stripQueryStrings fn else fn) pr (g i))
          = true)
    ∧ ((∀ i, i < 10 → g i = g' i) →
      upload_to_nanoid_impl st g path fn pr rqs
        = upload_to_nanoid_impl st g' path fn pr rqs) := by
  refine ⟨?_, ?_, ?_, ?_⟩
  · rw [ensure_unique_nanoids, ensureGo_error_iff]
    constructor
    · rintro ⟨n, hn, hl⟩
      exact ⟨n, hn, fun i hi =>
        (generateLoop_eq_none_iff _ _ _ _).mp hl i (by omega) (by omega)⟩
    · rintro ⟨n, hn, hl⟩
      exact ⟨n, hn, (generateLoop_eq_none_iff _ _ _ _).mpr
        (fun i h1 h2 => hl i (by omega))⟩
  · intro hgg
    rw [ensure_unique_nanoids, ensure_unique_nanoids]
    exact ensureGo_congr db gen gen' hgg _ inst
  · simp only [upload_to_nanoid_impl]
    rw [uploadLoop_eq_none_iff]
    constructor
    · intro h i hi
      exact h i (by omega) (by omega)
    · intro h i h1 h2
      exact h i (by omega)
  · intro hgg
    simp only [upload_to_nanoid_impl]
    exact uploadLoop_congr st _ g g' 10 0 (fun i h1 h2 => hgg i (by omega))

/-- Witness for C1: a storage on which every path exists makes the upload
helper give up (raise ValueError) after its 10 attempts. -/
theorem retry_loop_bounded_and_error_iff_witness :
    upload_to_nanoid_impl (fun _ => true) (fun _ => "XYZ") "up" "a.png"
      false true = none :=
  (retry_loop_bounded_and_error_iff [] (fun _ _ => false) (fun _ _ => "")
    (fun _ _ => "") ⟨false, []⟩ (fun _ => true) (fun _ => "XYZ")
    (fun _ => "XYZ") "up" "a.png" false true).2.2.1.mpr (fun _ _ => rfl)

/- ===== Claim C2 ===== -/

/-- C2 (confirmed): when a retry loop succeeds it commits the first
candidate whose existence check was negative: ensure_unique_nanoids leaves
each regenerated field holding a generated value whose check found no
existing row, after a (possibly empty) run of candidates that all existed;
_upload_to_nanoid_impl returns a path the storage reported as not existing,
all earlier candidate paths having existed. -/
theorem first_free_candidate_committed
    (flds : List ModelField) (db : String → String → Bool)
    (gen : String → Nat → String) (inst inst' : MInstance)
    (st : String → Bool) (g : Nat → String) (path fn : String)
    (pr rqs : Bool) (p : String) :
    (ensure_unique_nanoids flds db gen inst = .ok inst' →
      ∀ n ∈ fieldsToGenerate flds db inst,
        ∃ i, i < nanoid_max_attempts ∧ getVal inst' n = some (gen n i) ∧
          db n (gen n i) = false ∧ ∀ j, j < i → db n (gen n j) = true)
    ∧ (upload_to_nanoid_impl st g path fn pr rqs = some p →
      ∃ i, i < 10 ∧
        p = mkUniquePath path (if rqs then stripQueryStrings fn else fn) pr (g i) ∧
        st p = false ∧
        ∀ j, j < i →
          st (mkUniquePath path (if rqs then stripQueryStrings fn else fn) pr (g j))
            = true) := by
  constructor
  · intro h n hn
    obtain ⟨v, hloop, hval⟩ := ensureGo_mem db gen _ inst inst' h n hn
    obtain ⟨i, hi1, hi2, hi3, hi4, hi5⟩ :=
      generateLoop_eq_some (db n) (gen n) nanoid_max_attempts 0 v hloop
    refine ⟨i, by omega, ?_, hi4, fun j hj => hi5 j (by omega) hj⟩
    rw [hval, hi3]
  · intro h
    simp only [upload_to_nanoid_impl] at h
    obtain ⟨i, hi1, hi2, hi3, hi4, hi5⟩ := uploadLoop_eq_some st _ g 10 0 p h
    refine ⟨i, by omega, hi3, ?_, fun j hj => hi5 j (by omega) hj⟩
    rw [hi3]
    exact hi4

/-- Witness for C2: one unique NanoID field on a new record with an empty
table commits the first candidate. -/
theorem first_free_candidate_committed_witness :
    ensure_unique_nanoids [⟨"code", true, true⟩] (fun _ _ => false)
        (fun _ _ => "N1") ⟨false, []⟩ = .ok ⟨false, [("code", some "N1")]⟩
    ∧ ∃ i, i < nanoid_max_attempts
        ∧ getVal ⟨false, [("code", some "N1")]⟩ "code" = some "N1"
        ∧ (false : Bool) = false
        ∧ ∀ j, j < i → (false : Bool) = true :=
  ⟨by decide,
    (first_free_candidate_committed [⟨"code", true, true⟩] (fun _ _ => false)
      (fun _ _ => "N1") ⟨false, []⟩ ⟨false, [("code", some "N1")]⟩
      (fun _ => false) (fun _ => "") "" "" false false "").1 (by decide)
      "code" (by decide)⟩

/- ===== Claim C9 ===== -/

/-- C9 (confirmed): on a record that already has a primary key,
ensure_unique_nanoids selects for regeneration exactly the unique NanoID
fields whose value is None — the selection does not consult the database at
all — and in general a field enters fields_to_generate iff it is a unique
NanoID field and either its value is None or the record has no primary key
and its value already exists in the table; every field outside that list
keeps exactly its old value. -/
theorem ensure_pk_frame
    (flds : List ModelField) (db db' : String → String → Bool)
    (gen : String → Nat → String) (inst inst' : MInstance) :
    (inst.pk = true →
      fieldsToGenerate flds db inst
          = (get_unique_nanoid_fields flds).filter (fun n => (getVal inst n).isNone)
        ∧ fieldsToGenerate flds db inst = fieldsToGenerate flds db' inst)
    ∧ (ensure_unique_nanoids flds db gen inst = .ok inst' →
      ∀ n, n ∉ fieldsToGenerate flds db inst → getVal inst' n = getVal inst n)
    ∧ (∀ n, n ∈ fieldsToGenerate flds db inst ↔
        n ∈ get_unique_nanoid_fields flds ∧
          (getVal inst n = none
            ∨ (inst.pk = false ∧ ∃ v, getVal inst n = some v ∧ db n v = true))) := by
  refine ⟨?_, ?_, ?_⟩
  · intro hpk
    constructor
    · apply List.filter_congr
      intro n _
      cases hv : getVal inst n <;> simp [hpk, hv]
    · apply List.filter_congr
      intro n _
      cases hv : getVal inst n <;> simp [hpk, hv]
  · intro h n hn
    exact ensureGo_frame db gen _ inst inst' h n hn
  · intro n
    rw [fieldsToGenerate, List.mem_filter]
    cases hv : getVal inst n with
    | none => simp [hv]
    | some v =>
      cases hpk : inst.pk <;> simp [hv, hpk]

/-- Witness for C9: a pk-bearing record with a non-None unique NanoID value
is left untouched even when the table reports that value as existing. -/
theorem ensure_pk_frame_witness :
    ensure_unique_nanoids [⟨"code", true, true⟩] (fun _ _ => true)
        (fun _ _ => "N") ⟨true, [("code", some "X")]⟩
        = .ok ⟨true, [("code", some "X")]⟩
    ∧ getVal ⟨true, [("code", some "X")]⟩ "code"
        = getVal ⟨true, [("code", some "X")]⟩ "code" :=
  ⟨by decide,
    (ensure_pk_frame [⟨"code", true, true⟩] (fun _ _ => true) (fun _ _ => true)
      (fun _ _ => "N") ⟨true, [("code", some "X")]⟩
      ⟨true, [("code", some "X")]⟩).2.1 (by decide) "code" (by decide)⟩

/- ===== Claim C8 ===== -/

theorem stripQSAux_skip_no_newline (l : List Char) (h : '\n' ∉ l) :
    stripQSAux l true = [] := by
  induction l with
  | nil => rfl
  | cons c rest ih =>
    have hc : c ≠ '\n' := fun hcc => h (hcc ▸ List.mem_cons_self c rest)
    have hr : '\n' ∉ rest := fun hrr => h (List.mem_cons_of_mem c hrr)
    rw [stripQSAux, if_neg hc]
    exact ih hr

theorem stripQSAux_no_newline (l : List Char) (h : '\n' ∉ l) :
    stripQSAux l false = l.takeWhile (fun c => c != '?') := by
  induction l with
  | nil => rfl
  | cons c rest ih =>
    have hr : '\n' ∉ rest := fun hrr => h (List.mem_cons_of_mem c hrr)
    by_cases hc : c = '?'
    · subst hc
      rw [stripQSAux, if_pos rfl, stripQSAux_skip_no_newline rest hr]
      simp [List.takeWhile]
    · rw [stripQSAux, if_neg hc, ih hr]
      have hb : (c != '?') = true := by simp [hc]
      simp [List.takeWhile, hb]

theorem stripQueryStrings_no_newline (fn : String) (h : '\n' ∉ fn.data) :
    stripQueryStrings fn = String.mk (fn.data.takeWhile (fun c => c != '?')) := by
  rw [stripQueryStrings, stripQSAux_no_newline fn.data h]

/-- C8, counterexample: the claim says that with remove_query_strings true,
everything from the first '?' onward is stripped before any other
processing.  On the filename joining "a?b", a newline and ".txt" that would
leave "a" and yield the path up/XYZ with the all-free storage and a
generator returning XYZ, but the code's re.sub pattern stops each match at
the end of a line, so the second line survives, the extension is ".txt" and
the code returns up/XYZ.txt. -/
theorem upload_query_strip_counterexample :
    upload_to_nanoid_impl (fun _ => false) (fun _ => "XYZ") "up"
        ("a?b" ++ "\n" ++ ".txt") false true = some "up/XYZ.txt"
    ∧ String.mk ((("a?b" ++ "\n" ++ ".txt") : String).data.takeWhile
        (fun c => c != '?')) = "a"
    ∧ upload_to_nanoid_impl (fun _ => false) (fun _ => "XYZ") "up" "a"
        false true = some "up/XYZ"
    ∧ (some "up/XYZ.txt" : Option String) ≠ some "up/XYZ" := by
  refine ⟨by decide, by decide, by decide, by decide⟩

/-- C8 (amended): when remove_query_strings is true the filename is first
rewritten by removing, from each '?', the characters up to the end of that
line (for a filename without newlines this strips everything from the first
'?' onward), before any other processing; when preserve_original_filename
is true the returned path is path joined with the generated NanoID as a
subdirectory and the filename with spaces replaced by underscores;
otherwise the returned path is path joined with the NanoID concatenated
with the file extension converted to lowercase. -/
theorem upload_path_shape_amended
    (st : String → Bool) (g : Nat → String) (path fn : String) (pr : Bool)
    (p : String) :
    (upload_to_nanoid_impl st g path fn pr true
        = upload_to_nanoid_impl st g path (stripQueryStrings fn) pr false)
    ∧ ('\n' ∉ fn.data →
        stripQueryStrings fn = String.mk (fn.data.takeWhile (fun c => c != '?')))
    ∧ (upload_to_nanoid_impl st g path fn true false = some p →
        ∃ i, i < 10 ∧
          p = osPathJoin2 (osPathJoin2 path (g i)) (underscoreSpaces fn))
    ∧ (upload_to_nanoid_impl st g path fn false false = some p →
        ∃ i, i < 10 ∧ p = osPathJoin2 path (g i ++ pyLower (splitextExt fn))) := by
  refine ⟨rfl, stripQueryStrings_no_newline fn, ?_, ?_⟩
  · intro h
    simp only [upload_to_nanoid_impl] at h
    obtain ⟨i, hi1, hi2, hi3, _, _⟩ := uploadLoop_eq_some st _ g 10 0 p h
    refine ⟨i, by omega, ?_⟩
    rw [hi3]
    rfl
  · intro h
    simp only [upload_to_nanoid_impl] at h
    obtain ⟨i, hi1, hi2, hi3, _, _⟩ := uploadLoop_eq_some st _ g 10 0 p h
    refine ⟨i, by omega, ?_⟩
    rw [hi3]
    rfl

/-- Witness for the amended C8: preserve_original_filename at a concrete
filename with a space. -/
theorem upload_path_shape_amended_witness :
    upload_to_nanoid_impl (fun _ => false) (fun _ => "XYZ") "up" "My Photo.JPG"
        true false = some "up/XYZ/My_Photo.JPG"
    ∧ ∃ i, i < 10 ∧ ("up/XYZ/My_Photo.JPG" : String)
        = osPathJoin2 (osPathJoin2 "up" "XYZ") (underscoreSpaces "My Photo.JPG") :=
  ⟨by decide,
    (upload_path_shape_amended (fun _ => false) (fun _ => "XYZ") "up"
      "My Photo.JPG" true "up/XYZ/My_Photo.JPG").2.2.1 (by decide)⟩

/- ===== Claim C7 ===== -/

/-- C7 (confirmed): UniqueNanoIDMixin.save runs ensure_unique_nanoids and
then the parent save inside one atomic transaction, in that order (the
event trace); when the first parent save raises IntegrityError it re-runs
ensure_unique_nanoids and the parent save exactly once more (the trace has
exactly two of each call and no third); a ValueError from
ensure_unique_nanoids propagates unhandled and the returned database state
is the transaction's rollback db0; a second IntegrityError also propagates
with the database rolled back. -/
theorem save_transaction_retry {DbT : Type}
    (flds : List ModelField) (exq : DbT → String → String → Bool)
    (commit : Nat → DbT → DbT) (superSaveOk : Nat → Bool)
    (gen : Nat → String → Nat → String) (db0 : DbT) (inst : MInstance) :
    (∀ f, ensure_unique_nanoids flds (exq db0) (gen 0) inst = .error f →
      mixinSave flds exq commit superSaveOk gen db0 inst
        = (.error (.valueError f), [.ensureCall], db0))
    ∧ (∀ inst1, ensure_unique_nanoids flds (exq db0) (gen 0) inst = .ok inst1 →
        superSaveOk 0 = true →
        mixinSave flds exq commit superSaveOk gen db0 inst
          = (.ok inst1, [.ensureCall, .superSaveCall], commit 0 db0))
    ∧ (∀ inst1 f, ensure_unique_nanoids flds (exq db0) (gen 0) inst = .ok inst1 →
        superSaveOk 0 = false →
        ensure_unique_nanoids flds (exq db0) (gen 1) inst1 = .error f →
        mixinSave flds exq commit superSaveOk gen db0 inst
          = (.error (.valueError f),
              [.ensureCall, .superSaveCall, .ensureCall], db0))
    ∧ (∀ inst1 inst2,
        ensure_unique_nanoids flds (exq db0) (gen 0) inst = .ok inst1 →
        superSaveOk 0 = false →
        ensure_unique_nanoids flds (exq db0) (gen 1) inst1 = .ok inst2 →
        superSaveOk 1 = true →
        mixinSave flds exq commit superSaveOk gen db0 inst
          = (.ok inst2,
              [.ensureCall, .superSaveCall, .ensureCall, .superSaveCall],
              commit 1 db0))
    ∧ (∀ inst1 inst2,
        ensure_unique_nanoids flds (exq db0) (gen 0) inst = .ok inst1 →
        superSaveOk 0 = false →
        ensure_unique_nanoids flds (exq db0) (gen 1) inst1 = .ok inst2 →
        superSaveOk 1 = false →
        mixinSave flds exq commit superSaveOk gen db0 inst
          = (.error .integrity,
              [.ensureCall, .superSaveCall, .ensureCall, .superSaveCall],
              db0)) := by
  refine ⟨?_, ?_, ?_, ?_, ?_⟩
  · intro f h
    simp [mixinSave, h]
  · intro inst1 h h0
    simp [mixinSave, h, h0]
  · intro inst1 f h h0 h1
    simp [mixinSave, h, h0, h1]
  · intro inst1 inst2 h h0 h1 h2
    simp [mixinSave, h, h0, h1, h2]
  · intro inst1 inst2 h h0 h1 h2
    simp [mixinSave, h, h0, h1, h2]

/-- Witness for C7: a first parent save that raises IntegrityError followed
by a successful retry, on a one-field model over an empty table. -/
theorem save_transaction_retry_witness :
    mixinSave [⟨"code", true, true⟩] (fun _ _ _ => false)
        (fun k d => d + k + 1) (fun k => k == 1) (fun _ _ _ => "N1")
        (0 : Nat) ⟨false, []⟩
      = (.ok ⟨false, [("code", some "N1")]⟩,
          [.ensureCall, .superSaveCall, .ensureCall, .superSaveCall], 2) :=
  (save_transaction_retry [⟨"code", true, true⟩] (fun _ _ _ => false)
    (fun k d => d + k + 1) (fun k => k == 1) (fun _ _ _ => "N1")
    (0 : Nat) ⟨false, []⟩).2.2.2.1 ⟨false, [("code", some "N1")]⟩
    ⟨false, [("code", some "N1")]⟩ (by decide) (by decide) (by decide) (by decide)

/- ===== Claim C3 ===== -/

/-- C3 (confirmed): whenever regenerate_nanoid succeeds on a field, every
related object whose foreign key points at this model and targets that
field (to_fields[0] equals the field name) has its table rewritten so that
each record that referenced the old value now references the regenerated
instance's new value; in particular every individual record holding the old
value ends up holding the new one. -/
theorem regenerate_propagates {DbT : Type}
    (flds : List ModelField) (pkName : String)
    (exq : DbT → String → String → Bool) (commit : Nat → DbT → DbT)
    (superSaveOk : Nat → Bool) (gen : Nat → String → Nat → String)
    (genOnce : String → String) (confirmInput : String) (db0 : DbT)
    (st : RegenState) (field_name : String) (force : Bool)
    (st' : RegenState) :
    regenerate_nanoid flds pkName exq commit superSaveOk gen genOnce
        confirmInput db0 st field_name force = .ok st' →
    ∀ (k : Nat) (ro : RelatedObject), st.related[k]? = some ro →
      ro.pointsAtSelf = true → ro.toField = field_name →
      ∃ ro', st'.related[k]? = some ro'
        ∧ ro'.rows = ro.rows.map (fun r =>
            if r = getVal st.inst field_name then getVal st'.inst field_name
            else r)
        ∧ ∀ (j : Nat), ro.rows[j]? = some (getVal st.inst field_name) →
            ro'.rows[j]? = some (getVal st'.inst field_name) := by
  intro h k ro hk hpt htf
  by_cases hg1 : field_name ∉ get_all_nanoid_fields flds
  · rw [regenerate_nanoid, if_pos hg1] at h
    cases h
  rw [regenerate_nanoid, if_neg hg1] at h
  by_cases hg2 : field_name = pkName
  · rw [if_pos hg2] at h
    cases h
  rw [if_neg hg2] at h
  by_cases hg3 : (!force && pyLower confirmInput != "y") = true
  · rw [if_pos hg3] at h
    cases h
  rw [if_neg hg3] at h
  cases hms : (mixinSave flds exq commit superSaveOk gen db0
      (if fieldUnique flds field_name then setVal st.inst field_name none
       else setVal st.inst field_name (some (genOnce field_name)))).1 with
  | error e =>
    rw [hms] at h
    cases h
  | ok instSaved =>
    rw [hms] at h
    injection h with h
    subst h
    refine ⟨{ ro with rows := ro.rows.map (fun r =>
        if (r == getVal st.inst field_name) = true
        then getVal instSaved field_name else r) }, ?_, ?_, ?_⟩
    · show (st.related.map _)[k]? = _
      rw [List.getElem?_map, hk]
      simp [hpt, htf]
    · show ro.rows.map _ = ro.rows.map _
      simp only [beq_iff_eq]
    · intro j hj
      show (ro.rows.map _)[j]? = _
      rw [List.getElem?_map, hj]
      simp

/-- Witness for C3: regenerating the unique field 'code' of a saved record
propagates the new value NEW into the one related table row holding the old
value OLD and leaves the row holding ZZ alone. -/
theorem regenerate_propagates_witness :
    regenerate_nanoid [⟨"code", true, true⟩] "id"
        (fun _ _ _ => false) (fun _ d => d) (fun _ => true)
        (fun _ _ _ => "NEW") (fun _ => "NEW") "y" ()
        ⟨⟨true, [("code", some "OLD")]⟩,
          [⟨true, "code", [some "OLD", some "ZZ"]⟩]⟩ "code" true
      = .ok ⟨⟨true, [("code", some "NEW"), ("code", none), ("code", some "OLD")]⟩,
          [⟨true, "code", [some "NEW", some "ZZ"]⟩]⟩
    ∧ ∃ ro',
        ([⟨true, "code", [some "NEW", some "ZZ"]⟩] : List RelatedObject)[0]?
            = some ro'
        ∧ ro'.rows = [some "OLD", some "ZZ"].map (fun r =>
            if r = some "OLD" then some "NEW" else r)
        ∧ ∀ (j : Nat), ([some "OLD", some "ZZ"] : List (Option String))[j]?
              = some (some "OLD") →
            ro'.rows[j]? = some (some "NEW") :=
  ⟨by decide,
    regenerate_propagates [⟨"code", true, true⟩] "id"
      (fun _ _ _ => false) (fun _ d => d) (fun _ => true)
      (fun _ _ _ => "NEW") (fun _ => "NEW") "y" ()
      ⟨⟨true, [("code", some "OLD")]⟩,
        [⟨true, "code", [some "OLD", some "ZZ"]⟩]⟩ "code" true
      ⟨⟨true, [("code", some "NEW"), ("code", none), ("code", some "OLD")]⟩,
        [⟨true, "code", [some "NEW", some "ZZ"]⟩]⟩ (by decide) 0
      ⟨true, "code", [some "OLD", some "ZZ"]⟩ (by decide) rfl rfl⟩

/- ===== Claim C10 ===== -/

/-- C10 (confirmed): regenerate_nanoid raises ValueError when the field is
not a NanoID field of the model, raises ValueError when it names the
primary key, and raises UserWarning when force is false and the lowercased
confirmation answer is not y; each error is produced for every choice of
the generation and database oracles (the checks run before any value is
generated or any query issued), and an error outcome carries no new state,
so instance and database are unchanged. -/
theorem regenerate_error_guards {DbT : Type}
    (flds : List ModelField) (pkName : String)
    (exq : DbT → String → String → Bool) (commit : Nat → DbT → DbT)
    (superSaveOk : Nat → Bool) (gen : Nat → String → Nat → String)
    (genOnce : String → String) (confirmInput : String) (db0 : DbT)
    (st : RegenState) (field_name : String) (force : Bool) :
    (field_name ∉ get_all_nanoid_fields flds →
      regenerate_nanoid flds pkName exq commit superSaveOk gen genOnce
          confirmInput db0 st field_name force = .error .notNanoField)
    ∧ (field_name ∈ get_all_nanoid_fields flds → field_name = pkName →
      regenerate_nanoid flds pkName exq commit superSaveOk gen genOnce
          confirmInput db0 st field_name force = .error .primaryKey)
    ∧ (field_name ∈ get_all_nanoid_fields flds → field_name ≠ pkName →
      force = false → pyLower confirmInput ≠ "y" →
      regenerate_nanoid flds pkName exq commit superSaveOk gen genOnce
          confirmInput db0 st field_name force = .error .cancelled) := by
  refine ⟨?_, ?_, ?_⟩
  · intro h1
    rw [regenerate_nanoid, if_pos h1]
  · intro h1 h2
    rw [regenerate_nanoid, if_neg (by simp [h1]), if_pos h2]
  · intro h1 h2 h3 h4
    have hcond : (!force && pyLower confirmInput != "y") = true := by
      rw [h3]
      simp [h4]
    rw [regenerate_nanoid, if_neg (by simp [h1]), if_neg h2, if_pos hcond]

/-- Witness for C10: the three error guards at concrete inputs — an unknown
field name, the primary key field, and a declined confirmation. -/
theorem regenerate_error_guards_witness :
    regenerate_nanoid [⟨"code", true, true⟩] "id"
        (fun _ _ _ => false) (fun _ d => d) (fun _ => true)
        (fun _ _ _ => "G") (fun _ => "G") "y" ()
        ⟨⟨true, [("code", some "OLD")]⟩, []⟩ "nope" true
      = .error .notNanoField
    ∧ regenerate_nanoid [⟨"id", true, true⟩] "id"
        (fun _ _ _ => false) (fun _ d => d) (fun _ => true)
        (fun _ _ _ => "G") (fun _ => "G") "y" ()
        ⟨⟨true, [("id", some "OLD")]⟩, []⟩ "id" true
      = .error .primaryKey
    ∧ regenerate_nanoid [⟨"code", true, true⟩] "id"
        (fun _ _ _ => false) (fun _ d => d) (fun _ => true)
        (fun _ _ _ => "G") (fun _ => "G") "No" ()
        ⟨⟨true, [("code", some "OLD")]⟩, []⟩ "code" false
      = .error .cancelled :=
  ⟨(regenerate_error_guards [⟨"code", true, true⟩] "id"
      (fun _ _ _ => false) (fun _ d => d) (fun _ => true)
      (fun _ _ _ => "G") (fun _ => "G") "y" ()
      ⟨⟨true, [("code", some "OLD")]⟩, []⟩ "nope" true).1 (by decide),
   (regenerate_error_guards [⟨"id", true, true⟩] "id"
      (fun _ _ _ => false) (fun _ d => d) (fun _ => true)
      (fun _ _ _ => "G") (fun _ => "G") "y" ()
      ⟨⟨true, [("id", some "OLD")]⟩, []⟩ "id" true).2.1 (by decide) rfl,
   (regenerate_error_guards [⟨"code", true, true⟩] "id"
      (fun _ _ _ => false) (fun _ d => d) (fun _ => true)
      (fun _ _ _ => "G") (fun _ => "G") "No" ()
      ⟨⟨true, [("code", some "OLD")]⟩, []⟩ "code" false).2.2 (by decide)
      (by decide) rfl (by decide)⟩

end DjangoNanoid
